import Mathlib

/-!
Verification of the appointment scheduling and lifecycle engine of a single-provider
booking bot.  The repository ships one source file, `src/main.py`, which contains the
chat handlers; the `config`, `database` and `services` modules it imports (catalog,
store operations, availability computation) are not part of the sources, so those
operations are modelled from the specification, as marked in their doc comments.
Times are modelled as minutes (integers) on the single shared resource timeline.
-/

namespace Barber

/-- Appointment status values: the closed enumeration used throughout src/main.py
(`"PENDING"`, `"CONFIRMED"`, `"CANCELLED"`). -/
inductive Status where
  | PENDING
  | CONFIRMED
  | CANCELLED
deriving DecidableEq, Repr

/-- An appointment record as stored by the database collaborator and read back by
src/main.py: id, owning client's telegram id, selected service names, start and end
times (minutes), and status. -/
structure Appointment where
  id : Nat
  clientId : String
  services : List String
  startTime : Int
  endTime : Int
  status : Status
deriving DecidableEq, Repr

/-- The persistent store contents: the appointment list and the next id to assign. -/
structure DB where
  appointments : List Appointment
  nextId : Nat
deriving DecidableEq, Repr

/-- Half-open interval overlap test from spec section 3: `[s1, e1)` and `[s2, e2)`
overlap iff `s1 < e2` and `s2 < e1`. -/
def overlaps (s1 e1 s2 e2 : Int) : Bool :=
  decide (s1 < e2) && decide (s2 < e1)

/-- Modelled from the spec: `calculate_total_duration` from the services module, which
src/main.py imports but which is not under src/.  Per section 3, the total duration of
a selection is the sum of the catalog durations of the selected names. -/
def calculate_total_duration (catalog : List (String × Int)) (selected : List String) : Int :=
  (selected.map (fun n => (((catalog.find? (fun p => p.1 == n)).map Prod.snd).getD 0))).sum

/-- Modelled from the spec: `create_appointment` from the database module (imported at
src/main.py:36-46, not under src/).  Per section 4.3 it atomically re-checks that the
requested half-open interval overlaps no appointment whose status is not CANCELLED; on
conflict it rejects (`SlotTaken`, surfaced to the handler as a falsy id) and writes
nothing, otherwise it persists a new PENDING appointment and returns its id. -/
def create_appointment (db : DB) (clientId : String) (services : List String)
    (startT endT : Int) : Option Nat × DB :=
  if db.appointments.any (fun a =>
      !(a.status == Status.CANCELLED) && overlaps startT endT a.startTime a.endTime) then
    (none, db)
  else
    (some db.nextId,
      { appointments :=
          { id := db.nextId, clientId := clientId, services := services,
            startTime := startT, endTime := endT, status := Status.PENDING }
            :: db.appointments,
        nextId := db.nextId + 1 })

/-- The spec section 4.4 transition table projected onto (from-status, to-status)
pairs: every listed row moves between two distinct statuses, and all six distinct
ordered pairs appear in the table; self transitions are not listed. -/
def allowedTransition : Status → Status → Bool
  | Status.PENDING, Status.CONFIRMED => true
  | Status.PENDING, Status.CANCELLED => true
  | Status.CONFIRMED, Status.PENDING => true
  | Status.CONFIRMED, Status.CANCELLED => true
  | Status.CANCELLED, Status.CONFIRMED => true
  | Status.CANCELLED, Status.PENDING => true
  | _, _ => false

/-- Rejection reasons of the lifecycle store operations, from the spec section 7
taxonomy. -/
inductive TransitionError where
  | NotFound
  | IllegalTransition
  | SlotNoLongerAvailable
deriving DecidableEq, Repr

/-- Overwrite the status of the appointment with the given id, leaving every other
field and every other appointment unchanged. -/
def setStatus (db : DB) (apptId : Nat) (s : Status) : DB :=
  { db with appointments :=
      db.appointments.map (fun a => if a.id == apptId then { a with status := s } else a) }

/-- Modelled from the spec: `update_appointment_status` from the database module
(imported at src/main.py:36-46, not under src/).  Per section 4.4: unknown ids are
rejected; a (from,to) pair outside the transition table is rejected with
`IllegalTransition`; a revive out of CANCELLED re-runs the Invariant I1 overlap check
and fails with `SlotNoLongerAvailable` if the appointment's interval now overlaps
another non-cancelled appointment; otherwise the new status is written. -/
def update_appointment_status (db : DB) (apptId : Nat) (newStatus : Status) :
    Except TransitionError DB :=
  match db.appointments.find? (fun a => a.id == apptId) with
  | none => Except.error TransitionError.NotFound
  | some a =>
    if allowedTransition a.status newStatus then
      if a.status == Status.CANCELLED &&
          db.appointments.any (fun b =>
            !(b.id == a.id) && !(b.status == Status.CANCELLED) &&
            overlaps a.startTime a.endTime b.startTime b.endTime) then
        Except.error TransitionError.SlotNoLongerAvailable
      else
        Except.ok (setStatus db apptId newStatus)
    else
      Except.error TransitionError.IllegalTransition

/-- Modelled from the spec: `cancel_appointment` from the database module (imported at
src/main.py:36-46, not under src/) — the cancellation entry point used by both the
client path (src/main.py:1004) and the admin path (src/main.py:1426), a lifecycle
transition to CANCELLED.  It receives only the appointment id: no caller identity
reaches it. -/
def cancel_appointment (db : DB) (apptId : Nat) : Except TransitionError DB :=
  update_appointment_status db apptId Status.CANCELLED

/-- Modelled from the spec: the fixed provider identity `MASTER_TELEGRAM_ID` from the
config module (imported at src/main.py:29-35, not under src/); the handlers in
src/main.py compare `str(user_id)` against it. -/
def MASTER_TELEGRAM_ID : String := "master"

/-- Result of one chat-handler invocation: the store afterwards, whether the caller was
told the operation succeeded, whether a notification send was attempted, and whether a
failed send was caught and logged. -/
structure HandlerResult where
  db : DB
  success : Bool
  notifyAttempted : Bool
  errorLogged : Bool
deriving DecidableEq, Repr

/-- The `confirm_appointment` handler (src/main.py:849-928), `"confirm_appointment"`
callback branch: computes the end time from the selected services' total duration,
asks the store to create the appointment, reports success or failure to the user, and
on success attempts the notification to the master inside try/except — a send failure
is logged (src/main.py:916-917) and never re-raised. -/
def confirm_appointment (catalog : List (String × Int)) (db : DB) (userId : String)
    (services : List String) (startT : Int) (send : Except String Unit) : HandlerResult :=
  let dur := calculate_total_duration catalog services
  let endT := startT + dur
  match create_appointment db userId services startT endT with
  | (some _, db2) =>
      match send with
      | Except.ok _ =>
          { db := db2, success := true, notifyAttempted := true, errorLogged := false }
      | Except.error _ =>
          { db := db2, success := true, notifyAttempted := true, errorLogged := true }
  | (none, db2) =>
      { db := db2, success := false, notifyAttempted := false, errorLogged := false }

/-- The `admin_confirm_appointment` handler (src/main.py:1361-1419),
CALLBACK_ADMIN_CONFIRM branch: requires the provider identity (src/main.py:1376-1378),
asks the store to move the appointment to CONFIRMED (this same button is the
"restore and confirm" revive when the appointment is CANCELLED, src/main.py:509-515),
and on success attempts the client notification inside try/except
(src/main.py:1396-1417). -/
def admin_confirm_appointment (db : DB) (userId : String) (apptId : Nat)
    (send : Except String Unit) : HandlerResult :=
  if userId == MASTER_TELEGRAM_ID then
    match update_appointment_status db apptId Status.CONFIRMED with
    | Except.ok db2 =>
        match send with
        | Except.ok _ =>
            { db := db2, success := true, notifyAttempted := true, errorLogged := false }
        | Except.error _ =>
            { db := db2, success := true, notifyAttempted := true, errorLogged := true }
    | Except.error _ =>
        { db := db, success := false, notifyAttempted := false, errorLogged := false }
  else
    { db := db, success := false, notifyAttempted := false, errorLogged := false }

/-- The `admin_confirm_appointment` handler (src/main.py:1361-1463),
CALLBACK_ADMIN_CANCEL branch: requires the provider identity, cancels the appointment
through the store, and on success attempts the client notification inside try/except
(src/main.py:1439-1460). -/
def admin_cancel_appointment (db : DB) (userId : String) (apptId : Nat)
    (send : Except String Unit) : HandlerResult :=
  if userId == MASTER_TELEGRAM_ID then
    match cancel_appointment db apptId with
    | Except.ok db2 =>
        match send with
        | Except.ok _ =>
            { db := db2, success := true, notifyAttempted := true, errorLogged := false }
        | Except.error _ =>
            { db := db2, success := true, notifyAttempted := true, errorLogged := true }
    | Except.error _ =>
        { db := db, success := false, notifyAttempted := false, errorLogged := false }
  else
    { db := db, success := false, notifyAttempted := false, errorLogged := false }

/-- The `admin_status_change` handler (src/main.py:1156-1253): requires the provider
identity (src/main.py:1171-1173), asks the store to set the status carried in the
callback data (the keyboard generates it with target PENDING, src/main.py:500,519),
and on success attempts the client notification inside try/except
(src/main.py:1228-1245). -/
def admin_status_change (db : DB) (userId : String) (newStatus : Status) (apptId : Nat)
    (send : Except String Unit) : HandlerResult :=
  if userId == MASTER_TELEGRAM_ID then
    match update_appointment_status db apptId newStatus with
    | Except.ok db2 =>
        match send with
        | Except.ok _ =>
            { db := db2, success := true, notifyAttempted := true, errorLogged := false }
        | Except.error _ =>
            { db := db2, success := true, notifyAttempted := true, errorLogged := true }
    | Except.error _ =>
        { db := db, success := false, notifyAttempted := false, errorLogged := false }
  else
    { db := db, success := false, notifyAttempted := false, errorLogged := false }

/-- The `view_appointments` handler (src/main.py:954-1072), CALLBACK_CANCEL_PREFIX
branch (src/main.py:1000-1043): parses the appointment id from the callback data and
cancels it through the store; on success it attempts the notification to the master
inside try/except (src/main.py:1015-1036).  The caller's identity `userId` is received
by the handler but is never compared against the appointment's owner. -/
def view_appointments_cancel (db : DB) (userId : String) (apptId : Nat)
    (send : Except String Unit) : HandlerResult :=
  match cancel_appointment db apptId with
  | Except.ok db2 =>
      match send with
      | Except.ok _ =>
          { db := db2, success := true, notifyAttempted := true, errorLogged := false }
      | Except.error _ =>
          { db := db2, success := true, notifyAttempted := true, errorLogged := true }
  | Except.error _ =>
      { db := db, success := false, notifyAttempted := false, errorLogged := false }

/-- The service toggle of the `select_services` handler (src/main.py:689-702): if the
pressed service name is already in the session's selected list it is removed (Python
`list.remove`, first occurrence), otherwise it is appended at the end. -/
def toggle_service (selected : List String) (name : String) : List String :=
  if name ∈ selected then selected.erase name else selected ++ [name]

/-- The seven booking dates offered by `get_date_keyboard` (src/main.py:192-234):
one button per loop iteration `i` in `range(7)`, for the date `today + i` days.
Dates are modelled as day numbers. -/
def date_keyboard_dates (today : Nat) : List Nat :=
  (List.range 7).map (fun i => today + i)

/-- Modelled from the spec: the Slot Generator of section 4.1 (part of the services
module's `get_available_slots`, not under src/) — candidate start times at `openM`,
`openM + gran`, and so on, one per full granularity slot that fits inside the
business-hours window. -/
def slotCandidates (openM closeM gran : Int) : List Int :=
  (List.range ((closeM - openM) / gran).toNat).map (fun k => openM + gran * (k : Int))

/-- Modelled from the spec: `get_available_slots` from the services module (called at
src/main.py:252, not under src/).  Per section 4.2: take the section 4.1 candidates
and keep a candidate `c` iff it is not before `nowM`, the tentative slot
`[c, c + dur)` ends by closing time, and it overlaps no appointment whose status is
not CANCELLED. -/
def get_available_slots (db : DB) (openM closeM gran nowM dur : Int) : List Int :=
  (slotCandidates openM closeM gran).filter (fun c =>
    decide (nowM ≤ c) && decide (c + dur ≤ closeM) &&
    !(db.appointments.any (fun a =>
        !(a.status == Status.CANCELLED) && overlaps c (c + dur) a.startTime a.endTime)))

/-- The requested half-open interval `[s, e)` overlaps some appointment in the store
whose status is not CANCELLED (the admission-time conflict of Invariant I1). -/
def HasConflict (db : DB) (s e : Int) : Prop :=
  ∃ a ∈ db.appointments, a.status ≠ Status.CANCELLED ∧ s < a.endTime ∧ a.startTime < e

theorem hasConflict_iff_any (db : DB) (s e : Int) :
    HasConflict db s e ↔
      (db.appointments.any (fun a =>
        !(a.status == Status.CANCELLED) && overlaps s e a.startTime a.endTime)) = true := by
  simp [HasConflict, List.any_eq_true, overlaps, and_assoc]

instance (db : DB) (s e : Int) : Decidable (HasConflict db s e) :=
  decidable_of_iff _ (hasConflict_iff_any db s e).symm

theorem toggle_service_nodup (l : List String) (s : String) (h : l.Nodup) :
    (toggle_service l s).Nodup := by
  by_cases hs : s ∈ l
  · simpa [toggle_service, hs] using h.erase s
  · simp [toggle_service, hs, List.nodup_append, h]

theorem foldl_toggle_service_nodup (presses : List String) :
    ∀ acc : List String, acc.Nodup → (presses.foldl toggle_service acc).Nodup := by
  induction presses with
  | nil => intro acc h; exact h
  | cons p ps ih => intro acc h; exact ih _ (toggle_service_nodup acc p h)

/-- C9 counterexample: in the session selection `["a", "b"]`, pressing the service
button for `"a"` twice in a row yields `["b", "a"]`, which is not the previous list
`["a", "b"]` — `list.remove` deletes the occurrence in place while the re-add appends
at the end, so the session state is not restored exactly. -/
theorem c9_toggle_twice_counterexample :
    toggle_service (toggle_service ["a", "b"] "a") "a" = ["b", "a"] ∧
    toggle_service (toggle_service ["a", "b"] "a") "a" ≠ ["a", "b"] := by
  constructor
  · rfl
  · decide

/-- C9 (amended): pressing a service button toggles the service's membership in the
session's selected list (removed if present, appended if absent); on a duplicate-free
selection, pressing the same button twice in a row restores the previous selection up
to ordering (exactly the same members); the selection never contains the same service
name twice — toggling preserves duplicate-freedom, and any sequence of presses
starting from the empty selection of a fresh session (src/main.py:101-107) yields a
duplicate-free selection. -/
theorem c9_service_toggle (l : List String) (s : String) (h : l.Nodup) :
    (s ∈ toggle_service l s ↔ s ∉ l) ∧
    (toggle_service l s).Nodup ∧
    (∀ x, x ∈ toggle_service (toggle_service l s) s ↔ x ∈ l) ∧
    (∀ presses : List String, (presses.foldl toggle_service []).Nodup) := by
  refine ⟨?_, toggle_service_nodup l s h, ?_, fun presses => foldl_toggle_service_nodup presses [] (by simp)⟩
  · by_cases hs : s ∈ l
    · simp [toggle_service, hs, h.not_mem_erase]
    · simp [toggle_service, hs]
  · intro x
    by_cases hs : s ∈ l
    · have h1 : toggle_service l s = l.erase s := by simp [toggle_service, hs]
      have h2 : toggle_service (l.erase s) s = l.erase s ++ [s] := by
        simp [toggle_service, h.not_mem_erase]
      rw [h1, h2]
      simp only [List.mem_append, List.mem_singleton, h.mem_erase_iff]
      by_cases hx : x = s
      · simp [hx, hs]
      · simp [hx]
    · have h1 : toggle_service l s = l ++ [s] := by simp [toggle_service, hs]
      have h2 : toggle_service (l ++ [s]) s = l := by
        have : s ∈ l ++ [s] := by simp
        simp only [toggle_service, if_pos this]
        rw [List.erase_append_right _ hs]
        simp
      rw [h1, h2]

/-- C9 witness: the toggle facts at the concrete duplicate-free selection
`["a", "b"]`. -/
theorem c9_service_toggle_witness :
    ("c" ∈ toggle_service ["a", "b"] "c" ↔ "c" ∉ ["a", "b"]) ∧
    (toggle_service ["a", "b"] "c").Nodup ∧
    (∀ x, x ∈ toggle_service (toggle_service ["a", "b"] "c") "c" ↔ x ∈ ["a", "b"]) ∧
    (∀ presses : List String, (presses.foldl toggle_service []).Nodup) :=
  c9_service_toggle ["a", "b"] "c" (by decide)

/-- C10: the date-selection keyboard offers exactly the seven dates today through
today plus six days, one per row, in strictly ascending order, so no date more than
six days ahead is offered. -/
theorem c10_date_keyboard (t : Nat) :
    date_keyboard_dates t = [t, t + 1, t + 2, t + 3, t + 4, t + 5, t + 6] ∧
    (date_keyboard_dates t).length = 7 ∧
    List.Chain' (· < ·) (date_keyboard_dates t) ∧
    ∀ d ∈ date_keyboard_dates t, t ≤ d ∧ d ≤ t + 6 := by
  have hlist : date_keyboard_dates t = [t, t + 1, t + 2, t + 3, t + 4, t + 5, t + 6] := rfl
  refine ⟨hlist, by rw [hlist]; rfl, ?_, ?_⟩
  · rw [hlist]
    simp only [List.chain'_cons, List.chain'_singleton, and_true]
    omega
  · intro d hd
    rw [hlist] at hd
    simp only [List.mem_cons, List.not_mem_nil, or_false] at hd
    rcases hd with rfl | rfl | rfl | rfl | rfl | rfl | rfl <;> omega

/-- C10 witness: the keyboard facts evaluated at day 10. -/
theorem c10_date_keyboard_witness :
    (15 ∈ date_keyboard_dates 10) ∧ 10 ≤ 15 ∧ 15 ≤ 10 + 6 :=
  ⟨by decide, (c10_date_keyboard 10).2.2.2 15 (by decide)⟩

/-- C8: in every handler that changes state (create, admin confirm, admin cancel,
client cancel, admin status change), the store contents and the reported outcome are
the same whether the notification send succeeds or raises: the exception is caught by
the handler's try/except, logged, and dropped, so a notification failure neither rolls
back the state change nor surfaces as a booking error. -/
theorem c8_notification_failure_swallowed (catalog : List (String × Int)) (db : DB)
    (userId : String) (services : List String) (startT : Int) (apptId : Nat)
    (newStatus : Status) (o1 o2 : Except String Unit) :
    ((confirm_appointment catalog db userId services startT o1).db =
        (confirm_appointment catalog db userId services startT o2).db ∧
      (confirm_appointment catalog db userId services startT o1).success =
        (confirm_appointment catalog db userId services startT o2).success) ∧
    ((admin_confirm_appointment db userId apptId o1).db =
        (admin_confirm_appointment db userId apptId o2).db ∧
      (admin_confirm_appointment db userId apptId o1).success =
        (admin_confirm_appointment db userId apptId o2).success) ∧
    ((admin_cancel_appointment db userId apptId o1).db =
        (admin_cancel_appointment db userId apptId o2).db ∧
      (admin_cancel_appointment db userId apptId o1).success =
        (admin_cancel_appointment db userId apptId o2).success) ∧
    ((admin_status_change db userId newStatus apptId o1).db =
        (admin_status_change db userId newStatus apptId o2).db ∧
      (admin_status_change db userId newStatus apptId o1).success =
        (admin_status_change db userId newStatus apptId o2).success) ∧
    ((view_appointments_cancel db userId apptId o1).db =
        (view_appointments_cancel db userId apptId o2).db ∧
      (view_appointments_cancel db userId apptId o1).success =
        (view_appointments_cancel db userId apptId o2).success) := by
  refine ⟨?_, ?_, ?_, ?_, ?_⟩
  · cases h : create_appointment db userId services startT
        (startT + calculate_total_duration catalog services) with
    | mk fst snd => cases fst <;> cases o1 <;> cases o2 <;>
        simp [confirm_appointment, h]
  · by_cases hu : (userId == MASTER_TELEGRAM_ID) = true
    · cases h : update_appointment_status db apptId Status.CONFIRMED <;>
        cases o1 <;> cases o2 <;> simp [admin_confirm_appointment, hu, h]
    · simp [admin_confirm_appointment, hu]
  · by_cases hu : (userId == MASTER_TELEGRAM_ID) = true
    · cases h : cancel_appointment db apptId <;>
        cases o1 <;> cases o2 <;> simp [admin_cancel_appointment, hu, h]
    · simp [admin_cancel_appointment, hu]
  · by_cases hu : (userId == MASTER_TELEGRAM_ID) = true
    · cases h : update_appointment_status db apptId newStatus <;>
        cases o1 <;> cases o2 <;> simp [admin_status_change, hu, h]
    · simp [admin_status_change, hu]
  · cases h : cancel_appointment db apptId <;>
      cases o1 <;> cases o2 <;> simp [view_appointments_cancel, h]

/-- C1: a booking request whose interval conflicts with a non-cancelled appointment is
rejected — the store is unchanged, the user is told the booking failed, and no
notification is attempted; a request with no such conflict persists exactly one new
PENDING appointment carrying the requested client, services and interval, reports
success, and attempts the Created notification. -/
theorem c1_booking_admission (catalog : List (String × Int)) (db : DB) (userId : String)
    (services : List String) (startT : Int) (send : Except String Unit) :
    (HasConflict db startT (startT + calculate_total_duration catalog services) →
      (confirm_appointment catalog db userId services startT send).db = db ∧
      (confirm_appointment catalog db userId services startT send).success = false ∧
      (confirm_appointment catalog db userId services startT send).notifyAttempted = false) ∧
    (¬ HasConflict db startT (startT + calculate_total_duration catalog services) →
      (confirm_appointment catalog db userId services startT send).db.appointments =
        { id := db.nextId, clientId := userId, services := services, startTime := startT,
          endTime := startT + calculate_total_duration catalog services,
          status := Status.PENDING } :: db.appointments ∧
      (confirm_appointment catalog db userId services startT send).success = true ∧
      (confirm_appointment catalog db userId services startT send).notifyAttempted = true) := by
  constructor
  · intro h
    have hb := (hasConflict_iff_any db startT
      (startT + calculate_total_duration catalog services)).mp h
    cases send <;> simp [confirm_appointment, create_appointment, hb]
  · intro h
    have hb : (db.appointments.any (fun a =>
        !(a.status == Status.CANCELLED) &&
          overlaps startT (startT + calculate_total_duration catalog services)
            a.startTime a.endTime)) = false :=
      Bool.eq_false_iff.mpr (fun hc => h ((hasConflict_iff_any db startT
        (startT + calculate_total_duration catalog services)).mpr hc))
    cases send <;> simp [confirm_appointment, create_appointment, hb]

/-- A catalog used to evaluate the theorems at concrete inputs. -/
def catalog0 : List (String × Int) := [("haircut", 30), ("shave", 15)]

/-- A store holding one CONFIRMED appointment from minute 600 to 660. -/
def db0 : DB :=
  { appointments := [{ id := 1, clientId := "alice", services := ["haircut"],
                       startTime := 600, endTime := 660, status := Status.CONFIRMED }],
    nextId := 2 }

/-- C1 witness: against the store with a CONFIRMED 600-660 appointment, a 30-minute
request at 630 conflicts and is rejected with no write and no notification, while a
30-minute request at 660 (conflict free) is persisted as PENDING. -/
theorem c1_booking_admission_witness :
    (HasConflict db0 630 (630 + calculate_total_duration catalog0 ["haircut"]) ∧
      (confirm_appointment catalog0 db0 "bob" ["haircut"] 630 (Except.ok ())).db = db0 ∧
      (confirm_appointment catalog0 db0 "bob" ["haircut"] 630 (Except.ok ())).success = false ∧
      (confirm_appointment catalog0 db0 "bob" ["haircut"] 630 (Except.ok ())).notifyAttempted
        = false) ∧
    (¬ HasConflict db0 660 (660 + calculate_total_duration catalog0 ["haircut"]) ∧
      (confirm_appointment catalog0 db0 "bob" ["haircut"] 660 (Except.ok ())).db.appointments =
        { id := db0.nextId, clientId := "bob", services := ["haircut"], startTime := 660,
          endTime := 660 + calculate_total_duration catalog0 ["haircut"],
          status := Status.PENDING } :: db0.appointments ∧
      (confirm_appointment catalog0 db0 "bob" ["haircut"] 660 (Except.ok ())).success = true ∧
      (confirm_appointment catalog0 db0 "bob" ["haircut"] 660 (Except.ok ())).notifyAttempted
        = true) :=
  ⟨⟨by decide,
     (c1_booking_admission catalog0 db0 "bob" ["haircut"] 630 (Except.ok ())).1 (by decide)⟩,
   ⟨by decide,
     (c1_booking_admission catalog0 db0 "bob" ["haircut"] 660 (Except.ok ())).2 (by decide)⟩⟩

theorem create_appointment_guarded (db : DB) (clientId : String) (services : List String)
    (startT endT : Int)
    (hb : (db.appointments.any (fun a =>
      !(a.status == Status.CANCELLED) && overlaps startT endT a.startTime a.endTime)) = true) :
    create_appointment db clientId services startT endT = (none, db) := by
  unfold create_appointment
  rw [hb]
  rfl

theorem create_appointment_free (db : DB) (clientId : String) (services : List String)
    (startT endT : Int)
    (hb : (db.appointments.any (fun a =>
      !(a.status == Status.CANCELLED) && overlaps startT endT a.startTime a.endTime)) = false) :
    create_appointment db clientId services startT endT =
      (some db.nextId,
        { appointments :=
            { id := db.nextId, clientId := clientId, services := services,
              startTime := startT, endTime := endT, status := Status.PENDING }
              :: db.appointments,
          nextId := db.nextId + 1 }) := by
  unfold create_appointment
  rw [hb]
  rfl

/-- C2: admissions are serialized by the atomic store operation — if a first create is
admitted, a second create whose interval overlaps the first request's interval is
rejected (at most one of an overlapping pair succeeds), while two requests on disjoint
intervals that are both free in the store both succeed. -/
theorem c2_overlapping_admissions (db : DB) (u1 u2 : String) (s1 s2 : List String)
    (t1 e1 t2 e2 : Int) :
    (t1 < e2 → t2 < e1 →
      ∀ i1, (create_appointment db u1 s1 t1 e1).1 = some i1 →
        (create_appointment (create_appointment db u1 s1 t1 e1).2 u2 s2 t2 e2).1 = none) ∧
    (¬ HasConflict db t1 e1 → ¬ HasConflict db t2 e2 → e1 ≤ t2 →
      (create_appointment db u1 s1 t1 e1).1.isSome = true ∧
      (create_appointment (create_appointment db u1 s1 t1 e1).2 u2 s2 t2 e2).1.isSome
        = true) := by
  constructor
  · intro h12 h21 i1 hsome
    cases hb : db.appointments.any (fun a =>
        !(a.status == Status.CANCELLED) && overlaps t1 e1 a.startTime a.endTime) with
    | true =>
        rw [create_appointment_guarded db u1 s1 t1 e1 hb] at hsome
        simp at hsome
    | false =>
        rw [create_appointment_free db u1 s1 t1 e1 hb]
        have hd1 : decide (t2 < e1) = true := decide_eq_true h21
        have hd2 : decide (t1 < e2) = true := decide_eq_true h12
        have hany : ((({ id := db.nextId, clientId := u1, services := s1, startTime := t1,
                         endTime := e1, status := Status.PENDING } : Appointment)
                :: db.appointments).any (fun a =>
              !(a.status == Status.CANCELLED) && overlaps t2 e2 a.startTime a.endTime))
            = true := by
          simp [List.any_cons, overlaps, hd1, hd2]
        rw [create_appointment_guarded _ u2 s2 t2 e2 hany]
  · intro h1 h2 hle
    have hb1 : (db.appointments.any (fun a =>
        !(a.status == Status.CANCELLED) && overlaps t1 e1 a.startTime a.endTime)) = false :=
      Bool.eq_false_iff.mpr (fun hc => h1 ((hasConflict_iff_any db t1 e1).mpr hc))
    have hb2 : (db.appointments.any (fun a =>
        !(a.status == Status.CANCELLED) && overlaps t2 e2 a.startTime a.endTime)) = false :=
      Bool.eq_false_iff.mpr (fun hc => h2 ((hasConflict_iff_any db t2 e2).mpr hc))
    have hd : decide (t2 < e1) = false := decide_eq_false (not_lt.mpr hle)
    refine ⟨by rw [create_appointment_free db u1 s1 t1 e1 hb1]; rfl, ?_⟩
    rw [create_appointment_free db u1 s1 t1 e1 hb1]
    have hany2 : ((({ id := db.nextId, clientId := u1, services := s1, startTime := t1,
                      endTime := e1, status := Status.PENDING } : Appointment)
            :: db.appointments).any (fun a =>
          !(a.status == Status.CANCELLED) && overlaps t2 e2 a.startTime a.endTime))
        = false := by
      simp only [List.any_cons, overlaps, hd, Bool.false_and, Bool.and_false, Bool.false_or]
      exact hb2
    rw [create_appointment_free _ u2 s2 t2 e2 hany2]
    rfl

/-- The empty store. -/
def dbE : DB := { appointments := [], nextId := 0 }

/-- C2 witness: on an empty store, admitting 100-130 makes an overlapping 120-150
request lose, while a disjoint 200-230 request also succeeds. -/
theorem c2_overlapping_admissions_witness :
    ((100 : Int) < 150 ∧ (120 : Int) < 130 ∧
      (create_appointment dbE "u1" ["x"] 100 130).1 = some 0 ∧
      (create_appointment (create_appointment dbE "u1" ["x"] 100 130).2 "u2" ["y"]
        120 150).1 = none) ∧
    (¬ HasConflict dbE 100 130 ∧ ¬ HasConflict dbE 200 230 ∧ (130 : Int) ≤ 200 ∧
      (create_appointment dbE "u1" ["x"] 100 130).1.isSome = true ∧
      (create_appointment (create_appointment dbE "u1" ["x"] 100 130).2 "u2" ["y"]
        200 230).1.isSome = true) :=
  ⟨⟨by decide, by decide, by decide,
     (c2_overlapping_admissions dbE "u1" "u2" ["x"] ["y"] 100 130 120 150).1
       (by decide) (by decide) 0 (by decide)⟩,
   ⟨by decide, by decide, by decide,
     (c2_overlapping_admissions dbE "u1" "u2" ["x"] ["y"] 100 130 200 230).2
       (by decide) (by decide) (by decide)⟩⟩

theorem revive_conflict_iff_any (db : DB) (a : Appointment) :
    (∃ b ∈ db.appointments, b.id ≠ a.id ∧ b.status ≠ Status.CANCELLED ∧
        a.startTime < b.endTime ∧ b.startTime < a.endTime) ↔
      (db.appointments.any (fun b =>
        !(b.id == a.id) && !(b.status == Status.CANCELLED) &&
        overlaps a.startTime a.endTime b.startTime b.endTime)) = true := by
  simp [List.any_eq_true, overlaps, and_assoc]

/-- C3: reviving a CANCELLED appointment whose interval now overlaps another
non-cancelled appointment fails — the store reports SlotNoLongerAvailable for the
transition to CONFIRMED and to PENDING alike, and the admin handlers driving those
transitions leave the store unchanged (the status remains CANCELLED) and report
failure. -/
theorem c3_revive_rechecks_overlap (db : DB) (apptId : Nat) (a : Appointment)
    (send : Except String Unit)
    (hfind : db.appointments.find? (fun x => x.id == apptId) = some a)
    (hc : a.status = Status.CANCELLED)
    (hov : ∃ b ∈ db.appointments, b.id ≠ a.id ∧ b.status ≠ Status.CANCELLED ∧
        a.startTime < b.endTime ∧ b.startTime < a.endTime) :
    update_appointment_status db apptId Status.CONFIRMED =
        Except.error TransitionError.SlotNoLongerAvailable ∧
    update_appointment_status db apptId Status.PENDING =
        Except.error TransitionError.SlotNoLongerAvailable ∧
    (admin_confirm_appointment db MASTER_TELEGRAM_ID apptId send).db = db ∧
    (admin_confirm_appointment db MASTER_TELEGRAM_ID apptId send).success = false ∧
    (admin_status_change db MASTER_TELEGRAM_ID Status.PENDING apptId send).db = db ∧
    (admin_status_change db MASTER_TELEGRAM_ID Status.PENDING apptId send).success = false := by
  have hany := (revive_conflict_iff_any db a).mp hov
  have hcond : (a.status == Status.CANCELLED && db.appointments.any (fun b =>
      !(b.id == a.id) && !(b.status == Status.CANCELLED) &&
      overlaps a.startTime a.endTime b.startTime b.endTime)) = true := by
    rw [hc, hany]
    rfl
  have h1 : update_appointment_status db apptId Status.CONFIRMED =
      Except.error TransitionError.SlotNoLongerAvailable := by
    have hall : allowedTransition a.status Status.CONFIRMED = true := by rw [hc]; rfl
    simp [update_appointment_status, hfind, hall, hcond]
  have h2 : update_appointment_status db apptId Status.PENDING =
      Except.error TransitionError.SlotNoLongerAvailable := by
    have hall : allowedTransition a.status Status.PENDING = true := by rw [hc]; rfl
    simp [update_appointment_status, hfind, hall, hcond]
  refine ⟨h1, h2, ?_, ?_, ?_, ?_⟩ <;>
    simp [admin_confirm_appointment, admin_status_change, h1, h2]

/-- A store in which appointment 1 is CANCELLED over 600-660 while appointment 2 is
CONFIRMED over 630-690, overlapping it. -/
def db3 : DB :=
  { appointments :=
      [{ id := 1, clientId := "alice", services := ["haircut"],
         startTime := 600, endTime := 660, status := Status.CANCELLED },
       { id := 2, clientId := "carol", services := ["haircut"],
         startTime := 630, endTime := 690, status := Status.CONFIRMED }],
    nextId := 3 }

/-- C3 witness: reviving the cancelled 600-660 appointment fails because the confirmed
630-690 appointment now overlaps its slot. -/
theorem c3_revive_rechecks_overlap_witness :
    (db3.appointments.find? (fun x => x.id == 1) = some
      { id := 1, clientId := "alice", services := ["haircut"],
        startTime := 600, endTime := 660, status := Status.CANCELLED }) ∧
    update_appointment_status db3 1 Status.CONFIRMED =
        Except.error TransitionError.SlotNoLongerAvailable ∧
    update_appointment_status db3 1 Status.PENDING =
        Except.error TransitionError.SlotNoLongerAvailable ∧
    (admin_confirm_appointment db3 MASTER_TELEGRAM_ID 1 (Except.ok ())).db = db3 ∧
    (admin_confirm_appointment db3 MASTER_TELEGRAM_ID 1 (Except.ok ())).success = false ∧
    (admin_status_change db3 MASTER_TELEGRAM_ID Status.PENDING 1 (Except.ok ())).db = db3 ∧
    (admin_status_change db3 MASTER_TELEGRAM_ID Status.PENDING 1 (Except.ok ())).success
      = false :=
  ⟨by decide,
   c3_revive_rechecks_overlap db3 1
     { id := 1, clientId := "alice", services := ["haircut"],
       startTime := 600, endTime := 660, status := Status.CANCELLED }
     (Except.ok ()) (by decide) (by decide)
     ⟨{ id := 2, clientId := "carol", services := ["haircut"],
        startTime := 630, endTime := 690, status := Status.CONFIRMED },
      by decide, by decide, by decide, by decide, by decide⟩⟩

/-- C4: a lifecycle transition succeeds only when the (from-status, to-status) pair is
in the section 4.4 table; a pair outside the table is rejected with IllegalTransition;
in particular cancelling an already-CANCELLED appointment is rejected with
IllegalTransition, and the client cancel handler then leaves the store unchanged and
reports failure rather than silently succeeding. -/
theorem c4_transition_table (db : DB) (apptId : Nat) (a : Appointment) (s : Status)
    (userId : String) (send : Except String Unit)
    (hfind : db.appointments.find? (fun x => x.id == apptId) = some a) :
    (∀ db2, update_appointment_status db apptId s = Except.ok db2 →
        allowedTransition a.status s = true) ∧
    (allowedTransition a.status s = false →
        update_appointment_status db apptId s =
          Except.error TransitionError.IllegalTransition) ∧
    (a.status = Status.CANCELLED →
        cancel_appointment db apptId = Except.error TransitionError.IllegalTransition ∧
        (view_appointments_cancel db userId apptId send).db = db ∧
        (view_appointments_cancel db userId apptId send).success = false) := by
  have killed : ∀ h : allowedTransition a.status s = false,
      update_appointment_status db apptId s =
        Except.error TransitionError.IllegalTransition := by
    intro h
    simp [update_appointment_status, hfind, h]
  refine ⟨?_, killed, ?_⟩
  · intro db2 h
    cases hall : allowedTransition a.status s with
    | true => rfl
    | false =>
        rw [killed hall] at h
        simp at h
  · intro hc
    have hall : allowedTransition a.status Status.CANCELLED = false := by rw [hc]; rfl
    have herr : update_appointment_status db apptId Status.CANCELLED =
        Except.error TransitionError.IllegalTransition := by
      simp [update_appointment_status, hfind, hall]
    exact ⟨herr, by simp [view_appointments_cancel, cancel_appointment, herr]⟩

/-- C4 witness: in the db3 store, cancelling the already-CANCELLED appointment 1 is
rejected with IllegalTransition and the client cancel handler changes nothing. -/
theorem c4_transition_table_witness :
    (db3.appointments.find? (fun x => x.id == 1) = some
      { id := 1, clientId := "alice", services := ["haircut"],
        startTime := 600, endTime := 660, status := Status.CANCELLED }) ∧
    cancel_appointment db3 1 = Except.error TransitionError.IllegalTransition ∧
    (view_appointments_cancel db3 "alice" 1 (Except.ok ())).db = db3 ∧
    (view_appointments_cancel db3 "alice" 1 (Except.ok ())).success = false :=
  ⟨by decide,
   (c4_transition_table db3 1
     { id := 1, clientId := "alice", services := ["haircut"],
       startTime := 600, endTime := 660, status := Status.CANCELLED }
     Status.CANCELLED "alice" (Except.ok ()) (by decide)).2.2 (by decide)⟩

/-- A store holding one PENDING appointment owned by client `"alice"`. -/
def db5 : DB :=
  { appointments := [{ id := 1, clientId := "alice", services := ["haircut"],
                       startTime := 600, endTime := 630, status := Status.PENDING }],
    nextId := 2 }

/-- C5 counterexample: the client cancel path does not check ownership — a cancel
request from client `"bob"` naming appointment 1, which belongs to `"alice"`, is not
rejected as Unauthorized: it succeeds and the appointment's status changes to
CANCELLED. -/
theorem c5_client_ownership_counterexample :
    (db5.appointments.find? (fun x => x.id == 1)).map Appointment.clientId
        = some "alice" ∧
    "bob" ≠ "alice" ∧
    (view_appointments_cancel db5 "bob" 1 (Except.ok ())).success = true ∧
    (view_appointments_cancel db5 "bob" 1 (Except.ok ())).db =
      { appointments := [{ id := 1, clientId := "alice", services := ["haircut"],
                           startTime := 600, endTime := 630, status := Status.CANCELLED }],
        nextId := 2 } := by
  refine ⟨by decide, by decide, by decide, by decide⟩

/-- C5 (amended): the provider-side transitions do require the single fixed provider
identity — any other caller is turned away with no state change — but the client
cancel path performs no ownership check at all: its outcome is entirely independent of
the caller's identity, so a cancel request naming another client's appointment is not
rejected as Unauthorized. -/
theorem c5_authorization (db : DB) (userId u2 : String) (apptId : Nat)
    (newStatus : Status) (send : Except String Unit)
    (h : userId ≠ MASTER_TELEGRAM_ID) :
    ((admin_confirm_appointment db userId apptId send).db = db ∧
      (admin_confirm_appointment db userId apptId send).success = false) ∧
    ((admin_cancel_appointment db userId apptId send).db = db ∧
      (admin_cancel_appointment db userId apptId send).success = false) ∧
    ((admin_status_change db userId newStatus apptId send).db = db ∧
      (admin_status_change db userId newStatus apptId send).success = false) ∧
    view_appointments_cancel db userId apptId send =
      view_appointments_cancel db u2 apptId send := by
  have hb : (userId == MASTER_TELEGRAM_ID) = false := by
    simp [h]
  refine ⟨?_, ?_, ?_, rfl⟩ <;>
    simp [admin_confirm_appointment, admin_cancel_appointment, admin_status_change, hb]

/-- C5 witness: the non-provider caller `"bob"` is turned away from every admin
transition on the db5 store. -/
theorem c5_authorization_witness :
    ("bob" ≠ MASTER_TELEGRAM_ID) ∧
    ((admin_confirm_appointment db5 "bob" 1 (Except.ok ())).db = db5 ∧
      (admin_confirm_appointment db5 "bob" 1 (Except.ok ())).success = false) ∧
    ((admin_cancel_appointment db5 "bob" 1 (Except.ok ())).db = db5 ∧
      (admin_cancel_appointment db5 "bob" 1 (Except.ok ())).success = false) ∧
    ((admin_status_change db5 "bob" Status.CONFIRMED 1 (Except.ok ())).db = db5 ∧
      (admin_status_change db5 "bob" Status.CONFIRMED 1 (Except.ok ())).success = false) ∧
    view_appointments_cancel db5 "bob" 1 (Except.ok ()) =
      view_appointments_cancel db5 "carol" 1 (Except.ok ()) :=
  ⟨by decide, c5_authorization db5 "bob" "carol" 1 Status.CONFIRMED (Except.ok ())
    (by decide)⟩

/-- C6: every appointment admitted by the booking flow has
endTime − startTime equal to the sum of the catalog durations of its services (the
total duration at creation time), and the lifecycle store operation never edits
services or timestamps in place — a successful status update preserves every field of
every appointment except the status. -/
theorem c6_duration_consistency (catalog : List (String × Int)) (db : DB)
    (userId : String) (services : List String) (startT : Int)
    (send : Except String Unit) :
    (∀ a ∈ (confirm_appointment catalog db userId services startT send).db.appointments,
        a ∉ db.appointments →
        a.endTime - a.startTime =
          (services.map (fun n =>
            (((catalog.find? (fun p => p.1 == n)).map Prod.snd).getD 0))).sum) ∧
    (∀ apptId newStatus db2,
        update_appointment_status db apptId newStatus = Except.ok db2 →
        db2.appointments.map
            (fun a => (a.id, a.clientId, a.services, a.startTime, a.endTime)) =
          db.appointments.map
            (fun a => (a.id, a.clientId, a.services, a.startTime, a.endTime))) := by
  constructor
  · intro a ha hnew
    cases hb : db.appointments.any (fun x =>
        !(x.status == Status.CANCELLED) &&
          overlaps startT (startT + calculate_total_duration catalog services)
            x.startTime x.endTime) with
    | true =>
        rw [show (confirm_appointment catalog db userId services startT send).db = db by
          cases send <;>
            simp [confirm_appointment,
              create_appointment_guarded db userId services startT
                (startT + calculate_total_duration catalog services) hb]] at ha
        exact absurd ha hnew
    | false =>
        rw [show (confirm_appointment catalog db userId services startT send).db.appointments
              = ({ id := db.nextId, clientId := userId, services := services,
                   startTime := startT,
                   endTime := startT + calculate_total_duration catalog services,
                   status := Status.PENDING } : Appointment) :: db.appointments by
          cases send <;>
            simp [confirm_appointment,
              create_appointment_free db userId services startT
                (startT + calculate_total_duration catalog services) hb]] at ha
        rcases List.mem_cons.mp ha with rfl | hmem
        · show startT + calculate_total_duration catalog services - startT = _
          rw [add_sub_cancel_left]
          rfl
        · exact absurd hmem hnew
  · intro apptId newStatus db2 h
    cases hf : db.appointments.find? (fun x => x.id == apptId) with
    | none =>
        rw [show update_appointment_status db apptId newStatus =
            Except.error TransitionError.NotFound by
          simp [update_appointment_status, hf]] at h
        simp at h
    | some a =>
        by_cases hall : allowedTransition a.status newStatus = true
        · by_cases hcond : (a.status == Status.CANCELLED &&
              db.appointments.any (fun b =>
                !(b.id == a.id) && !(b.status == Status.CANCELLED) &&
                overlaps a.startTime a.endTime b.startTime b.endTime)) = true
          · rw [show update_appointment_status db apptId newStatus =
                Except.error TransitionError.SlotNoLongerAvailable by
              simp [update_appointment_status, hf, hall, hcond]] at h
            simp at h
          · have hcond' := Bool.eq_false_iff.mpr hcond
            rw [show update_appointment_status db apptId newStatus =
                Except.ok (setStatus db apptId newStatus) by
              simp [update_appointment_status, hf, hall, hcond']] at h
            obtain rfl : setStatus db apptId newStatus = db2 := by
              injection h
            simp only [setStatus, List.map_map]
            congr 1
            funext x
            by_cases hx : (x.id == apptId) = true <;> simp [Function.comp, hx]
        · have hall' := Bool.eq_false_iff.mpr hall
          rw [show update_appointment_status db apptId newStatus =
              Except.error TransitionError.IllegalTransition by
            simp [update_appointment_status, hf, hall']] at h
          simp at h

/-- C6 witness: the appointment admitted at 660 for one haircut has end minus start
equal to 30, the catalog duration sum; and confirming appointment 1 of db5 preserves
every non-status field. -/
theorem c6_duration_consistency_witness :
    (({ id := 2, clientId := "bob", services := ["haircut"], startTime := 660,
        endTime := 690, status := Status.PENDING } : Appointment) ∈
      (confirm_appointment catalog0 db0 "bob" ["haircut"] 660
        (Except.ok ())).db.appointments) ∧
    (({ id := 2, clientId := "bob", services := ["haircut"], startTime := 660,
        endTime := 690, status := Status.PENDING } : Appointment) ∉ db0.appointments) ∧
    ((690 : Int) - 660 =
      (["haircut"].map (fun n =>
        (((catalog0.find? (fun p => p.1 == n)).map Prod.snd).getD 0))).sum) ∧
    (update_appointment_status db5 1 Status.CONFIRMED =
      Except.ok (setStatus db5 1 Status.CONFIRMED)) ∧
    ((setStatus db5 1 Status.CONFIRMED).appointments.map
        (fun a => (a.id, a.clientId, a.services, a.startTime, a.endTime)) =
      db5.appointments.map
        (fun a => (a.id, a.clientId, a.services, a.startTime, a.endTime))) :=
  ⟨by decide, by decide,
   (c6_duration_consistency catalog0 db0 "bob" ["haircut"] 660 (Except.ok ())).1
     { id := 2, clientId := "bob", services := ["haircut"], startTime := 660,
       endTime := 690, status := Status.PENDING } (by decide) (by decide),
   by rfl,
   (c6_duration_consistency catalog0 db5 "bob" ["haircut"] 660 (Except.ok ())).2
     1 Status.CONFIRMED (setStatus db5 1 Status.CONFIRMED) (by rfl)⟩

/-- C7: membership in the availability computation is characterized by being a
generated candidate, not in the past, ending by closing time, and overlapping no
non-cancelled appointment under half-open semantics; consequently an appointment
starting exactly at the candidate's end never disqualifies it (the overlap test is
false there), and every candidate whose tentative end exceeds closing time is
dropped. -/
theorem c7_availability_filter (db : DB) (openM closeM gran nowM dur c : Int) :
    (c ∈ get_available_slots db openM closeM gran nowM dur ↔
      (c ∈ slotCandidates openM closeM gran ∧ nowM ≤ c ∧ c + dur ≤ closeM ∧
        ∀ a ∈ db.appointments, a.status ≠ Status.CANCELLED →
          ¬(c < a.endTime ∧ a.startTime < c + dur))) ∧
    (∀ b : Appointment, b.startTime = c + dur →
      overlaps c (c + dur) b.startTime b.endTime = false) ∧
    (closeM < c + dur → c ∉ get_available_slots db openM closeM gran nowM dur) := by
  have hmem : c ∈ get_available_slots db openM closeM gran nowM dur ↔
      (c ∈ slotCandidates openM closeM gran ∧ nowM ≤ c ∧ c + dur ≤ closeM ∧
        ∀ a ∈ db.appointments, a.status ≠ Status.CANCELLED →
          ¬(c < a.endTime ∧ a.startTime < c + dur)) := by
    rw [get_available_slots, List.mem_filter]
    simp only [Bool.and_eq_true, decide_eq_true_eq, Bool.not_eq_true',
      List.any_eq_false, Bool.and_eq_false_iff, beq_eq_false_iff_ne,
      decide_eq_false_iff_not, overlaps, and_assoc]
    constructor
    · rintro ⟨h1, h2, h3, h4⟩
      exact ⟨h1, h2, h3, fun a ha hs hov => h4 a ha ⟨hs, hov.1, hov.2⟩⟩
    · rintro ⟨h1, h2, h3, h4⟩
      exact ⟨h1, h2, h3, fun a ha hc => h4 a ha hc.1 ⟨hc.2.1, hc.2.2⟩⟩
  refine ⟨hmem, ?_, ?_⟩
  · intro b hb
    rw [overlaps, hb]
    simp
  · intro hcl hmem2
    have := (hmem.mp hmem2).2.2.1
    omega

/-- C7 witness: in the spec section 8 scenario — business hours 540 to 1080 minutes
(09:00-18:00), granularity 30, one CONFIRMED appointment 600-660, duration 30 — the
boundary candidate 570 (ending exactly at 600) is offered, 600 and 630 are not, 660
is offered again, and candidate 1060 with a 30-minute duration (ending past closing)
is dropped. -/
theorem c7_availability_filter_witness :
    (570 ∈ get_available_slots db0 540 1080 30 0 30) ∧
    (600 ∉ get_available_slots db0 540 1080 30 0 30) ∧
    (630 ∉ get_available_slots db0 540 1080 30 0 30) ∧
    (660 ∈ get_available_slots db0 540 1080 30 0 30) ∧
    ((1080 : Int) < 1060 + 30) ∧
    (1060 ∉ get_available_slots db0 540 1080 30 0 30) :=
  ⟨by decide, by decide, by decide, by decide, by decide,
   (c7_availability_filter db0 540 1080 30 0 30 1060).2.2 (by decide)⟩

end Barber
